import Mathlib

/-!
Verification of the Disease-Prediction-System repository.

This file shallowly embeds the parts of `database.py` and `app.py` that the
claims are about:

* `database.py`: the SQLite record store — `initialize_db` (the two
  `CREATE TABLE IF NOT EXISTS` statements), `save_diabetes_prediction`,
  both definitions of `save_heart_disease_prediction` (Python's last
  definition wins), and the two `..._by_email` queries
  (`SELECT ... WHERE email = ? ORDER BY prediction_date DESC`).
* `app.py`: the inference adapters `diabetes_prediction` and
  `heart_disease_prediction` (label + confidence derivation over an opaque
  classifier exposing `predict` and optionally `predict_proba` /
  `decision_function`), the per-flow form validation
  (`name.replace(" ","").isalpha()`, `email.endswith((...))`), the
  "Make Prediction" submission flow of `main` for each disease, and the
  diabetes history tally (`value_counts().get(1, 0)` / `.get(0, 0)`).

SQLite semantics needed by those statements is modelled explicitly:
an `INSERT` naming a column absent from the table's schema fails (and the
surrounding `except` branch rolls back, leaving the store unchanged);
columns absent from an `INSERT`'s column list receive their default, which
for every column of these schemas is `NULL` except the
`INTEGER PRIMARY KEY AUTOINCREMENT` id; `WHERE email = ?` uses SQL equality
(`NULL` compares false to everything); `ORDER BY prediction_date DESC`
sorts by the SQLite value order (`NULL` < numeric < text, numerics by
value, texts lexicographically).  Machine reals from the Python side are
modelled as `ℝ` in the adapters and `ℚ` inside stored values; wall-clock
instants are modelled as abstract integer instants.
-/

/-- A SQLite value as used by this program: `NULL`, an integer, a real
(modelled as `ℚ`), or a text string. -/
inductive Value where
  | null : Value
  | int : Int → Value
  | real : ℚ → Value
  | text : String → Value
deriving DecidableEq, Repr

/-- One stored row: a value for every column of its table's schema, in
schema order. -/
def Row : Type := List (String × Value)

instance : DecidableEq Row := inferInstanceAs (DecidableEq (List (String × Value)))

/-- Read a column of a row.  Every row produced by an insert carries every
schema column, so a missing column (only possible for rows not built by
this program) reads as `NULL`. -/
def rowGet (r : Row) (c : String) : Value :=
  match r.find? (fun p => p.1 == c) with
  | some p => p.2
  | none => Value.null

/-- A column of a `CREATE TABLE` statement.  The only per-column attribute
these schemas use is `INTEGER PRIMARY KEY AUTOINCREMENT` on `id`; no column
declares a `DEFAULT`. -/
structure Column where
  name : String
  autoPk : Bool
deriving DecidableEq, Repr

/-- A plain column (no constraints). -/
def col (n : String) : Column := ⟨n, false⟩

/-- An `INTEGER PRIMARY KEY AUTOINCREMENT` column. -/
def pkcol (n : String) : Column := ⟨n, true⟩

/-- One table: its schema, its `AUTOINCREMENT` sequence counter, and its
rows in insertion order. -/
structure Table where
  schema : List Column
  seq : Nat
  rows : List Row
deriving DecidableEq

/-- The database: named tables, plus SQLite's built-in `user_version`
schema-version cell (`PRAGMA user_version`, 0 on a fresh database; this
program never reads or writes it). -/
structure DbState where
  tables : List (String × Table)
  user_version : Int
deriving DecidableEq

/-- A fresh, empty database file. -/
def emptyDb : DbState := { tables := [], user_version := 0 }

/-- Look up a table by name. -/
def getTable (db : DbState) (n : String) : Option Table :=
  match db.tables.find? (fun p => p.1 == n) with
  | some p => some p.2
  | none => none

/-- Replace a named table's contents. -/
def setTable (db : DbState) (n : String) (t : Table) : DbState :=
  { db with tables := db.tables.map (fun p => if p.1 == n then (n, t) else p) }

/-- `CREATE TABLE IF NOT EXISTS`: a no-op when a table of that name already
exists (whatever its schema), otherwise creates an empty table. -/
def createTableIfNotExists (db : DbState) (n : String) (s : List Column) : DbState :=
  if db.tables.any (fun p => p.1 == n) then db
  else { db with tables := db.tables ++ [(n, { schema := s, seq := 0, rows := [] })] }

/-- `INSERT INTO t (cols) VALUES (vals)`.  Fails if a named column is not in
the schema (SQLite: "table … has no column named …") or the value count
mismatches.  Schema columns not named in the insert get `NULL` (none of
these schemas declares a `DEFAULT`), except the `AUTOINCREMENT` primary key,
which gets the next sequence value. -/
def tableInsert (t : Table) (cols : List String) (vals : List Value) : Except String Table :=
  match cols.find? (fun c => !(t.schema.any (fun sc => sc.name == c))) with
  | some c => .error ("has no column named " ++ c)
  | none =>
    if cols.length != vals.length then .error "values count mismatch"
    else
      let assign := cols.zip vals
      let row : Row := t.schema.map (fun sc =>
        (sc.name,
          match assign.find? (fun p => p.1 == sc.name) with
          | some p => p.2
          | none => if sc.autoPk then Value.int (t.seq + 1) else Value.null))
      .ok { t with seq := t.seq + 1, rows := t.rows ++ [row] }

/-- Execute an insert against a named table of the database. -/
def dbInsert (db : DbState) (tname : String) (cols : List String) (vals : List Value) :
    Except String DbState :=
  match getTable db tname with
  | none => .error ("no such table: " ++ tname)
  | some t =>
    match tableInsert t cols vals with
    | .error e => .error ("table " ++ tname ++ " " ++ e)
    | .ok t' => .ok (setTable db tname t')

/-- Columns of `diabetes_predictions` as created by `Database.initialize_db`
(database.py lines 56–72).  Note: no `sex` column. -/
def diabetesSchema : List Column :=
  [pkcol "id", col "name", col "email", col "pregnancies", col "glucose",
   col "blood_pressure", col "skin_thickness", col "insulin", col "bmi",
   col "diabetes_pedigree", col "age", col "prediction", col "prediction_date"]

/-- Columns of `heart_disease_predictions` as created by
`Database.initialize_db` (database.py lines 74–95).  `prediction_date` is
declared `TIMESTAMP` with no default. -/
def heartSchema : List Column :=
  [pkcol "id", col "name", col "email", col "age", col "sex",
   col "chest_pain_type", col "resting_bp", col "cholesterol", col "fasting_bs",
   col "resting_ecg", col "max_heart_rate", col "exercise_angina", col "oldpeak",
   col "st_slope", col "major_vessels", col "thalassemia", col "prediction",
   col "prediction_date"]

/-- `Database.initialize_db` (database.py lines 51–96): two
`CREATE TABLE IF NOT EXISTS` statements, run at every startup (the
`Database()` singleton constructor calls it). -/
def initialize_db (db : DbState) : DbState :=
  createTableIfNotExists
    (createTableIfNotExists db "diabetes_predictions" diabetesSchema)
    "heart_disease_predictions" heartSchema

/-- Python `dict.get(k, default)` on a string-keyed dictionary of values. -/
def dictGet (d : List (String × Value)) (k : String) (dflt : Value) : Value :=
  match d.find? (fun p => p.1 == k) with
  | some p => p.2
  | none => dflt

/-- `Database.save_diabetes_prediction` (database.py lines 98–130).
`prediction_time = datetime.now(...)` is modelled by the abstract instant
`now`.  The `INSERT` column list names `sex`, and on any exception the
`except` branch rolls back and re-raises, leaving the store unchanged. -/
def save_diabetes_prediction (db : DbState) (user_data : List (String × Value))
    (prediction : String) (now : Int) : Except String DbState :=
  dbInsert db "diabetes_predictions"
    ["name", "sex", "email", "pregnancies", "glucose", "blood_pressure",
     "skin_thickness", "insulin", "bmi", "diabetes_pedigree", "age",
     "prediction", "prediction_date"]
    [dictGet user_data "name" (.text ""),
     dictGet user_data "sex" (.text ""),
     dictGet user_data "email" (.text ""),
     dictGet user_data "pregnancies" (.int 0),
     dictGet user_data "glucose" (.int 0),
     dictGet user_data "blood_pressure" (.int 0),
     dictGet user_data "skin_thickness" (.int 0),
     dictGet user_data "insulin" (.int 0),
     dictGet user_data "bmi" (.int 0),
     dictGet user_data "diabetes_pedigree" (.int 0),
     dictGet user_data "age" (.int 0),
     .text prediction,
     .int now]

/-- First (shadowed) definition of `Database.save_heart_disease_prediction`
(database.py lines 132–169): includes `prediction_date` with an explicit
`datetime.now` timestamp.  Python's second definition of the same method
name replaces this one; it is embedded only to document the shadowing. -/
def save_heart_disease_prediction_v1 (db : DbState) (user_data : List (String × Value))
    (prediction : String) (now : Int) : Except String DbState :=
  dbInsert db "heart_disease_predictions"
    ["name", "email", "age", "sex", "chest_pain_type", "resting_bp", "cholesterol",
     "fasting_bs", "resting_ecg", "max_heart_rate", "exercise_angina", "oldpeak",
     "st_slope", "major_vessels", "thalassemia", "prediction", "prediction_date"]
    [dictGet user_data "name" (.text ""),
     dictGet user_data "email" (.text ""),
     dictGet user_data "age" (.int 0),
     dictGet user_data "sex" (.text ""),
     dictGet user_data "chest_pain_type" (.text ""),
     dictGet user_data "resting_bp" (.int 0),
     dictGet user_data "cholesterol" (.int 0),
     dictGet user_data "fasting_bs" (.text ""),
     dictGet user_data "resting_ecg" (.text ""),
     dictGet user_data "max_heart_rate" (.int 0),
     dictGet user_data "exercise_angina" (.text ""),
     dictGet user_data "oldpeak" (.int 0),
     dictGet user_data "st_slope" (.text ""),
     dictGet user_data "major_vessels" (.int 0),
     dictGet user_data "thalassemia" (.text ""),
     .text prediction,
     .int now]

/-- Effective (second, last-defined) `Database.save_heart_disease_prediction`
(database.py lines 171–208).  Its `INSERT` column list omits
`prediction_date` entirely; the comment in the source claims the database's
`CURRENT_TIMESTAMP` will be used, but the schema declares no default for
that column. -/
def save_heart_disease_prediction (db : DbState) (user_data : List (String × Value))
    (prediction : String) : Except String DbState :=
  dbInsert db "heart_disease_predictions"
    ["name", "email", "age", "sex", "chest_pain_type", "resting_bp", "cholesterol",
     "fasting_bs", "resting_ecg", "max_heart_rate", "exercise_angina", "oldpeak",
     "st_slope", "major_vessels", "thalassemia", "prediction"]
    [dictGet user_data "name" (.text ""),
     dictGet user_data "email" (.text ""),
     dictGet user_data "age" (.int 0),
     dictGet user_data "sex" (.text ""),
     dictGet user_data "chest_pain_type" (.text ""),
     dictGet user_data "resting_bp" (.int 0),
     dictGet user_data "cholesterol" (.int 0),
     dictGet user_data "fasting_bs" (.text ""),
     dictGet user_data "resting_ecg" (.text ""),
     dictGet user_data "max_heart_rate" (.int 0),
     dictGet user_data "exercise_angina" (.text ""),
     dictGet user_data "oldpeak" (.int 0),
     dictGet user_data "st_slope" (.text ""),
     dictGet user_data "major_vessels" (.int 0),
     dictGet user_data "thalassemia" (.text ""),
     .text prediction]

/-- SQL `=` comparison of two stored values: `NULL` compares false against
everything (including `NULL`); otherwise values of the same kind compare by
equality and values of different kinds are unequal. -/
def sqlEqB (a b : Value) : Bool :=
  match a, b with
  | .null, _ => false
  | _, .null => false
  | a, b => a == b

/-- Sort key realising SQLite's ordering of stored values:
`NULL` < numeric < text, numerics ordered by value (`INTEGER` and `REAL`
compare in one numeric class), texts ordered lexicographically. -/
def valueKey : Value → ℕ ×ₗ ℚ ×ₗ String
  | .null => toLex (0, toLex (0, ""))
  | .int n => toLex (1, toLex ((n : ℚ), ""))
  | .real q => toLex (1, toLex (q, ""))
  | .text s => toLex (2, toLex (0, s))

/-- Sort key of a row for `ORDER BY prediction_date DESC`. -/
def dateKey (r : Row) : ℕ ×ₗ ℚ ×ₗ String := valueKey (rowGet r "prediction_date")

/-- `a` precedes `b` under `ORDER BY prediction_date DESC`: `a`'s stored date
is at least `b`'s (newest first, `NULL` dates last). -/
def dateDescRel (a b : Row) : Prop := dateKey b ≤ dateKey a

instance : DecidableRel dateDescRel := fun a b =>
  inferInstanceAs (Decidable (dateKey b ≤ dateKey a))

instance : IsTotal Row dateDescRel :=
  ⟨fun a b => le_total (dateKey b) (dateKey a)⟩

instance : IsTrans Row dateDescRel :=
  ⟨fun _ _ _ h1 h2 => le_trans h2 h1⟩

/-- The `SELECT * ... WHERE email = ? ORDER BY prediction_date DESC` body
shared verbatim (up to the table name) by the two `..._by_email` queries.
The extra `formatted_date` projection of the `SELECT` is a per-row
reformatting of `prediction_date` and does not affect which rows are
returned or their order, so it is not modelled. -/
def selectByEmailOrdered (t : Table) (email : String) : List Row :=
  List.insertionSort dateDescRel
    (t.rows.filter (fun r => sqlEqB (rowGet r "email") (.text email)))

/-- `Database.get_diabetes_predictions_by_email` (database.py lines 232–242). -/
def get_diabetes_predictions_by_email (db : DbState) (email : String) :
    Except String (List Row) :=
  match getTable db "diabetes_predictions" with
  | none => .error "no such table: diabetes_predictions"
  | some t => .ok (selectByEmailOrdered t email)

/-- `Database.get_heart_disease_predictions_by_email`
(database.py lines 244–254). -/
def get_heart_disease_predictions_by_email (db : DbState) (email : String) :
    Except String (List Row) :=
  match getTable db "heart_disease_predictions" with
  | none => .error "no such table: heart_disease_predictions"
  | some t => .ok (selectByEmailOrdered t email)

/-- A Python exception raised by the model call: `ValueError` (e.g. a
feature that cannot be coerced to float, or a wrong-shape vector) or any
other exception. -/
inductive PyErr where
  | valueError (msg : String)
  | otherError (msg : String)
deriving DecidableEq, Repr

/-- An opaque pre-trained classifier as used through `pickle`-loaded model
objects: `predict` (which may raise), and optionally `predict_proba`
(returning the row `[P(class 0), P(class 1)]`) and/or `decision_function`
(returning a margin score).  `hasattr(model, ...)` is modelled by the
`Option` being `some`. -/
structure Classifier where
  predict : List ℝ → Except PyErr Int
  predict_proba : Option (List ℝ → ℝ × ℝ)
  decision_function : Option (List ℝ → ℝ)

/-- `1 / (1 + np.exp(-x))`, the logistic transform used on
`decision_function` scores. -/
noncomputable def sigmoid (x : ℝ) : ℝ := 1 / (1 + Real.exp (-x))

/-- `diabetes_prediction` (app.py lines 130–161): label plus confidence.
The `try`/`except` catches every exception from the conversion and model
call and returns `("Error in prediction", 0)`; exceptions are modelled as
`predict` returning `.error`. -/
noncomputable def diabetes_prediction (m : Classifier) (input_data : List ℝ) : String × ℝ :=
  match m.predict input_data with
  | .error _ => ("Error in prediction", 0)
  | .ok pred =>
    let prob_value : ℝ :=
      match m.predict_proba with
      | some proba => if pred = 1 then (proba input_data).2 else (proba input_data).1
      | none =>
        match m.decision_function with
        | some df => sigmoid (df input_data)
        | none => 0.8
    if pred = 0 then ("Not Diabetic", if pred = 0 then prob_value else 1 - prob_value)
    else ("Diabetic", if pred = 1 then prob_value else 1 - prob_value)

/-- `heart_disease_prediction` (app.py lines 164–198).  Same structure as
the diabetes adapter; a `ValueError` (e.g. from `float(x)`) yields an
"Error: Invalid input!" label, any other exception an "Unexpected Error:"
label, each with confidence 0. -/
noncomputable def heart_disease_prediction (m : Classifier) (input_data : List ℝ) : String × ℝ :=
  match m.predict input_data with
  | .error (.valueError msg) => ("Error: Invalid input! " ++ msg, 0)
  | .error (.otherError msg) => ("Unexpected Error: " ++ msg, 0)
  | .ok pred =>
    let prob_value : ℝ :=
      match m.predict_proba with
      | some proba => if pred = 1 then (proba input_data).2 else (proba input_data).1
      | none =>
        match m.decision_function with
        | some df => sigmoid (df input_data)
        | none => 0.8
    if pred = 0 then ("No Heart Disease", if pred = 0 then prob_value else 1 - prob_value)
    else ("Heart Disease Detected", if pred = 1 then prob_value else 1 - prob_value)

/-- `name.replace(" ", "")`: the name with all space characters removed. -/
def stripSpaces (s : String) : String := String.mk (s.data.filter (fun c => c ≠ ' '))

/-- Python `str.isalpha()`: true iff the string is non-empty and every
character is alphabetic. -/
def pyIsalpha (s : String) : Bool := !s.data.isEmpty && s.data.all Char.isAlpha

/-- Python `str.endswith(t)`: `t` is a character-for-character suffix. -/
def pyEndsWith (s t : String) : Bool := t.data.isSuffixOf s.data

/-- The fixed allow-list `email_type = ('@gmail.com', '@yahoo.com',
'@outlook.com')` (app.py line 659 and line 962). -/
def email_type : List String := ["@gmail.com", "@yahoo.com", "@outlook.com"]

/-- Python `str.endswith(tuple)`: ends with any of the suffixes. -/
def endsWithAny (s : String) (l : List String) : Bool := l.any (fun t => pyEndsWith s t)

/-- The diabetes form fields (app.py lines 649–680): name, email, gender
select box, and eight numeric widgets. -/
structure DiabetesForm where
  name : String
  email : String
  sex : String
  pregnancies : ℚ
  glucose : ℚ
  blood_pressure : ℚ
  skin_thickness : ℚ
  insulin : ℚ
  bmi : ℚ
  diabetes_pedigree : ℚ
  age : ℚ

/-- `input_data` of the diabetes flow (app.py line 686), in form order. -/
noncomputable def diabetesFeatures (f : DiabetesForm) : List ℝ :=
  [(f.pregnancies : ℝ), (f.glucose : ℝ), (f.blood_pressure : ℝ), (f.skin_thickness : ℝ),
   (f.insulin : ℝ), (f.bmi : ℝ), (f.diabetes_pedigree : ℝ), (f.age : ℝ)]

/-- `user_data` dict of the diabetes flow (app.py lines 727–739). -/
def diabetesUserData (f : DiabetesForm) : List (String × Value) :=
  [("name", .text f.name), ("sex", .text f.sex), ("email", .text f.email),
   ("pregnancies", .real f.pregnancies), ("glucose", .real f.glucose),
   ("blood_pressure", .real f.blood_pressure), ("skin_thickness", .real f.skin_thickness),
   ("insulin", .real f.insulin), ("bmi", .real f.bmi),
   ("diabetes_pedigree", .real f.diabetes_pedigree), ("age", .real f.age)]

/-- Terminal outcome of one submitted "Make Prediction" run. -/
inductive RunOutcome where
  | warnedMissing
  | rejectedName
  | rejectedEmail
  | modelLoadError
  | saveFailed (msg : String)
  | saved (emailSent : Bool)
deriving DecidableEq, Repr

/-- One submitted run of the diabetes "Make Prediction" flow
(app.py lines 648–753): empty-field warning, name validation (`st.stop`),
email allow-list validation, then — with models loaded — inference
(called once for display at line 689 and again at line 742), the
`save_diabetes_prediction` call, and the email attempt.  An exception from
the save propagates, so the email step is not reached and the store keeps
its prior state; `smtpOk` is the outcome of the SMTP transport inside
`send_email`, which returns `False` on any exception. -/
noncomputable def runDiabetes (db : DbState) (f : DiabetesForm) (diabetes_model : Classifier)
    (models_loaded : Bool) (now : Int) (smtpOk : Bool) : DbState × RunOutcome :=
  if f.name = "" ∨ f.email = "" then (db, .warnedMissing)
  else if !pyIsalpha (stripSpaces f.name) then (db, .rejectedName)
  else if !endsWithAny f.email email_type then (db, .rejectedEmail)
  else
    let input_data := diabetesFeatures f
    if models_loaded then
      let diagnosis := (diabetes_prediction diabetes_model input_data).1
      match save_diabetes_prediction db (diabetesUserData f) diagnosis now with
      | .error e => (db, .saveFailed e)
      | .ok db' => (db', .saved smtpOk)
    else (db, .modelLoadError)

/-- The heart form fields (app.py lines 953–1013): name, email, and the
thirteen widgets (select boxes carry their display strings). -/
structure HeartForm where
  name : String
  email : String
  age : ℚ
  sex : String
  cp : String
  trestbps : ℚ
  chol : ℚ
  fbs : String
  restecg : String
  thalach : ℚ
  exang : String
  oldpeak : ℚ
  slope : String
  ca : ℚ
  thal : String

/-- `cp_options` (app.py lines 975–979). -/
def cp_options : List (String × Int) :=
  [("Typical Angina", 0), ("Atypical Angina", 1), ("Non-Anginal Pain", 2), ("Asymptomatic", 3)]

/-- `restecg_options` (app.py lines 987–990). -/
def restecg_options : List (String × Int) :=
  [("Normal", 0), ("ST-T Wave Abnormality", 1), ("Left Ventricular Hypertrophy", 2)]

/-- `slope_options` (app.py lines 1001–1004). -/
def slope_options : List (String × Int) :=
  [("Upsloping", 0), ("Flat", 1), ("Downsloping", 2)]

/-- `thal_options` (app.py lines 1008–1011). -/
def thal_options : List (String × Int) :=
  [("Normal", 1), ("Fixed Defect", 2), ("Reversible Defect", 3)]

/-- `fbs_options` (app.py line 984). -/
def fbs_options : List String := ["Less than 120 mg/dl", "Greater than 120 mg/dl"]

/-- Dictionary indexing `opts[k]` for a select-box mapping; the select box
only ever offers the dictionary's keys, so the `0` fallback is
unreachable in the modelled flows. -/
def optValue (opts : List (String × Int)) (k : String) : Int :=
  match opts.find? (fun p => p.1 == k) with
  | some p => p.2
  | none => 0

/-- `input_data` of the heart flow (app.py lines 1019–1021), in the exact
order passed to the model. -/
noncomputable def heartFeatures (f : HeartForm) : List ℝ :=
  [(f.age : ℝ), if f.sex = "Male" then 1 else 0, (optValue cp_options f.cp : ℝ),
   (f.trestbps : ℝ), (f.chol : ℝ), if f.fbs = "Greater than 120 mg/dl" then 1 else 0,
   (optValue restecg_options f.restecg : ℝ), (f.thalach : ℝ),
   if f.exang = "Yes" then 1 else 0, (f.oldpeak : ℝ),
   (optValue slope_options f.slope : ℝ), (f.ca : ℝ), (optValue thal_options f.thal : ℝ)]

/-- `user_data` dict of the heart flow (app.py lines 1062–1078); the select
boxes contribute their display strings. -/
def heartUserData (f : HeartForm) : List (String × Value) :=
  [("name", .text f.name), ("email", .text f.email), ("age", .real f.age),
   ("sex", .text f.sex), ("chest_pain_type", .text f.cp), ("resting_bp", .real f.trestbps),
   ("cholesterol", .real f.chol), ("fasting_bs", .text f.fbs),
   ("resting_ecg", .text f.restecg), ("max_heart_rate", .real f.thalach),
   ("exercise_angina", .text f.exang), ("oldpeak", .real f.oldpeak),
   ("st_slope", .text f.slope), ("major_vessels", .real f.ca),
   ("thalassemia", .text f.thal)]

/-- One submitted run of the heart "Make Prediction" flow
(app.py lines 952–1092), mirroring `runDiabetes`; the save is the
effective `save_heart_disease_prediction`, which takes no timestamp. -/
noncomputable def runHeart (db : DbState) (f : HeartForm) (heart_model : Classifier)
    (models_loaded : Bool) (smtpOk : Bool) : DbState × RunOutcome :=
  if f.name = "" ∨ f.email = "" then (db, .warnedMissing)
  else if !pyIsalpha (stripSpaces f.name) then (db, .rejectedName)
  else if !endsWithAny f.email email_type then (db, .rejectedEmail)
  else
    let input_data := heartFeatures f
    if models_loaded then
      let diagnosis := (heart_disease_prediction heart_model input_data).1
      match save_heart_disease_prediction db (heartUserData f) diagnosis with
      | .error e => (db, .saveFailed e)
      | .ok db' => (db', .saved smtpOk)
    else (db, .modelLoadError)

/-- The `'prediction'` column of a history result, with `NULL` entries
dropped as pandas `value_counts` drops `NaN`. -/
def predictionValues (rows : List Row) : List Value :=
  (rows.map (fun r => rowGet r "prediction")).filter (fun v => v ≠ .null)

/-- Order of `value_counts` entries: descending by count (pandas sorts the
counts series most-frequent first; tie order is not specified by pandas,
this embedding keeps a fixed order for ties). -/
def countDescRel (a b : Value × Nat) : Prop := b.2 ≤ a.2

instance : DecidableRel countDescRel := fun a b =>
  inferInstanceAs (Decidable (b.2 ≤ a.2))

instance : IsTotal (Value × Nat) countDescRel :=
  ⟨fun a b => le_total b.2 a.2⟩

instance : IsTrans (Value × Nat) countDescRel :=
  ⟨fun _ _ _ h1 h2 => le_trans h2 h1⟩

/-- `history_data['prediction'].value_counts()` (app.py line 889): each
distinct prediction value with its number of occurrences, sorted
most-frequent first.  (These tally lines, app.py 889–892, are indented one
space short of their enclosing block — the module as committed fails to
parse — so this models them at their evident intended position.) -/
def value_counts (rows : List Row) : List (Value × Nat) :=
  List.insertionSort countDescRel
    ((predictionValues rows).dedup.map (fun v => (v, (predictionValues rows).count v)))

/-- pandas 1.x–2.x `Series.get(key, default)` on the counts series with an
integer key: label lookup first (the key could occur in the index), but on
a miss with a non-integer index `s[key]` falls back to POSITIONAL
indexing, so the key selects the entry at that rank of the
frequency-sorted series; an out-of-range position raises, which `get`
turns into the default. -/
def seriesGet (s : List (Value × Nat)) (k : Nat) (dflt : Nat) : Nat :=
  match s.find? (fun p => p.1 == Value.int k) with
  | some p => p.2
  | none =>
    match s.get? k with
    | some p => p.2
    | none => dflt

/-- `diabetes_count = prediction_counts.get(1, 0)` (app.py line 890): the
integer key 1 — on the string-keyed counts series this resolves
positionally to the second-ranked count. -/
def diabetes_count (rows : List Row) : Nat := seriesGet (value_counts rows) 1 0

/-- `no_diabetes_count = prediction_counts.get(0, 0)` (app.py line 891):
the integer key 0 — positionally the top-ranked count. -/
def no_diabetes_count (rows : List Row) : Nat := seriesGet (value_counts rows) 0 0

/-- `total_user_records = diabetes_count + no_diabetes_count`
(app.py line 892). -/
def total_user_records (rows : List Row) : Nat := diabetes_count rows + no_diabetes_count rows

/-- A probabilistic diabetes classifier predicting class 1 with
`predict_proba` row `[0.07, 0.93]`. -/
noncomputable def clf93 : Classifier :=
  { predict := fun _ => .ok 1, predict_proba := some (fun _ => (0.07, 0.93)),
    decision_function := none }

/-- A probabilistic diabetes classifier predicting class 0 with
`predict_proba` row `[0.95, 0.05]`. -/
noncomputable def clf95 : Classifier :=
  { predict := fun _ => .ok 0, predict_proba := some (fun _ => (0.95, 0.05)),
    decision_function := none }

/-- A heart classifier predicting class 1 with probabilities `[0.2, 0.8]`. -/
noncomputable def goodHeartClf : Classifier :=
  { predict := fun _ => .ok 1, predict_proba := some (fun _ => (0.2, 0.8)),
    decision_function := none }

/-- A classifier whose `predict` raises `ValueError("bad")` — e.g. on a
malformed feature vector. -/
noncomputable def badClf : Classifier :=
  { predict := fun _ => .error (.valueError "bad"), predict_proba := none,
    decision_function := none }

/-- A fully valid diabetes form submission. -/
def diabetesForm0 : DiabetesForm :=
  { name := "John", email := "john@gmail.com", sex := "Female", pregnancies := 0,
    glucose := 100, blood_pressure := 70, skin_thickness := 20, insulin := 80,
    bmi := 25, diabetes_pedigree := 1/2, age := 30 }

/-- A fully valid heart form submission. -/
def heartForm0 : HeartForm :=
  { name := "John", email := "john@gmail.com", age := 50, sex := "Male",
    cp := "Typical Angina", trestbps := 120, chol := 250,
    fbs := "Less than 120 mg/dl", restecg := "Normal", thalach := 150,
    exang := "No", oldpeak := 1, slope := "Flat", ca := 0, thal := "Normal" }

/-- A diabetes form with the invalid name "John3". -/
def badNameDiabetesForm : DiabetesForm := { diabetesForm0 with name := "John3" }

/-- A heart form with an email outside the allow-list. -/
def badEmailHeartForm : HeartForm := { heartForm0 with email := "user@random.io" }

/-- The rows of the `heart_disease_predictions` table of a database
(empty when the table does not exist). -/
def heartRowsOf (db : DbState) : List Row :=
  match getTable db "heart_disease_predictions" with
  | some t => t.rows
  | none => []

/-- The row that the effective heart-disease save appends: every schema
column in order, the unnamed `prediction_date` filled with `NULL` and the
auto-increment id with the next sequence value. -/
def heartInsertRow (ud : List (String × Value)) (lbl : String) (seq : Nat) : Row :=
  [("id", Value.int (seq + 1)),
   ("name", dictGet ud "name" (.text "")),
   ("email", dictGet ud "email" (.text "")),
   ("age", dictGet ud "age" (.int 0)),
   ("sex", dictGet ud "sex" (.text "")),
   ("chest_pain_type", dictGet ud "chest_pain_type" (.text "")),
   ("resting_bp", dictGet ud "resting_bp" (.int 0)),
   ("cholesterol", dictGet ud "cholesterol" (.int 0)),
   ("fasting_bs", dictGet ud "fasting_bs" (.text "")),
   ("resting_ecg", dictGet ud "resting_ecg" (.text "")),
   ("max_heart_rate", dictGet ud "max_heart_rate" (.int 0)),
   ("exercise_angina", dictGet ud "exercise_angina" (.text "")),
   ("oldpeak", dictGet ud "oldpeak" (.int 0)),
   ("st_slope", dictGet ud "st_slope" (.text "")),
   ("major_vessels", dictGet ud "major_vessels" (.int 0)),
   ("thalassemia", dictGet ud "thalassemia" (.text "")),
   ("prediction", Value.text lbl),
   ("prediction_date", Value.null)]

/-- The (empty) diabetes table created by `initialize_db` on a fresh file. -/
def diabetesTable0 : Table := ⟨diabetesSchema, 0, []⟩

/-- The (empty) heart table created by `initialize_db` on a fresh file. -/
def heartTable0 : Table := ⟨heartSchema, 0, []⟩

/-- Outcomes in which the run aborted during form validation, before any
model call or store access. -/
def isPreInferenceReject (o : RunOutcome) : Prop :=
  o = .warnedMissing ∨ o = .rejectedName ∨ o = .rejectedEmail

/-- The store state immediately after a successful heart-disease append on
a fresh initialized database. -/
noncomputable def heartSavedDb : DbState :=
  match save_heart_disease_prediction (initialize_db emptyDb) (heartUserData heartForm0)
      ((heart_disease_prediction goodHeartClf (heartFeatures heartForm0)).1) with
  | .ok d => d
  | .error _ => emptyDb

/-- A one-record history whose prediction is the string "Diabetic". -/
def historyRow0 : Row := [("prediction", Value.text "Diabetic")]

/-- A history row whose prediction is the string "Not Diabetic". -/
def historyRowN : Row := [("prediction", Value.text "Not Diabetic")]

lemma find?_set (l : List (String × Table)) (n : String) (t' : Table)
    (h : (l.find? (fun p => p.1 == n)).isSome) :
    (l.map (fun p => if p.1 == n then (n, t') else p)).find? (fun p => p.1 == n)
      = some (n, t') := by
  induction l with
  | nil => simp [List.find?] at h
  | cons p l ih =>
    by_cases hp : p.1 = n
    · simp [List.find?, hp]
    · have hp' : (p.1 == n) = false := by simpa using hp
      simp only [List.find?, hp', List.map_cons, Bool.false_eq_true, if_false] at h ⊢
      exact ih h

lemma getTable_setTable (db : DbState) (n : String) (t t' : Table)
    (h : getTable db n = some t) : getTable (setTable db n t') n = some t' := by
  unfold getTable at h ⊢
  unfold setTable
  have hs : (db.tables.find? (fun p => p.1 == n)).isSome := by
    cases hf : db.tables.find? (fun p => p.1 == n) with
    | none => rw [hf] at h; simp at h
    | some q => simp [hf]
  rw [find?_set db.tables n t' hs]

lemma save_heart_ok (db : DbState) (ud : List (String × Value)) (lbl : String)
    (seq : Nat) (rows : List Row)
    (ht : getTable db "heart_disease_predictions" = some ⟨heartSchema, seq, rows⟩) :
    save_heart_disease_prediction db ud lbl
      = .ok (setTable db "heart_disease_predictions"
          ⟨heartSchema, seq + 1, rows ++ [heartInsertRow ud lbl seq]⟩) := by
  unfold save_heart_disease_prediction dbInsert
  rw [ht]
  rfl

lemma sigmoid_nonneg (x : ℝ) : 0 ≤ sigmoid x := by
  unfold sigmoid
  positivity

lemma sigmoid_le_one (x : ℝ) : sigmoid x ≤ 1 := by
  unfold sigmoid
  rw [div_le_one (by positivity)]
  nlinarith [Real.exp_pos (-x)]

lemma diabetes_confidence_bound (m : Classifier) (x : List ℝ) (ld : Int)
    (hok : m.predict x = .ok ld)
    (hp : ∀ p, m.predict_proba = some p →
      (0 ≤ (p x).1 ∧ (p x).1 ≤ 1) ∧ (0 ≤ (p x).2 ∧ (p x).2 ≤ 1)) :
    0 ≤ (diabetes_prediction m x).2 ∧ (diabetes_prediction m x).2 ≤ 1 := by
  unfold diabetes_prediction
  rw [hok]
  cases hpp : m.predict_proba with
  | some p =>
    have hb := hp p hpp
    dsimp only
    split_ifs <;> constructor <;> simp <;> nlinarith [hb.1.1, hb.1.2, hb.2.1, hb.2.2]
  | none =>
    cases hdf : m.decision_function with
    | some df =>
      have h1 := sigmoid_nonneg (df x)
      have h2 := sigmoid_le_one (df x)
      dsimp only
      split_ifs <;> constructor <;> simp <;> nlinarith
    | none =>
      dsimp only
      split_ifs <;> constructor <;> simp <;> norm_num

lemma heart_confidence_bound (m : Classifier) (y : List ℝ) (lh : Int)
    (hok : m.predict y = .ok lh)
    (hp : ∀ p, m.predict_proba = some p →
      (0 ≤ (p y).1 ∧ (p y).1 ≤ 1) ∧ (0 ≤ (p y).2 ∧ (p y).2 ≤ 1)) :
    0 ≤ (heart_disease_prediction m y).2 ∧ (heart_disease_prediction m y).2 ≤ 1 := by
  unfold heart_disease_prediction
  rw [hok]
  cases hpp : m.predict_proba with
  | some p =>
    have hb := hp p hpp
    dsimp only
    split_ifs <;> constructor <;> simp <;> nlinarith [hb.1.1, hb.1.2, hb.2.1, hb.2.2]
  | none =>
    cases hdf : m.decision_function with
    | some df =>
      have h1 := sigmoid_nonneg (df y)
      have h2 := sigmoid_le_one (df y)
      dsimp only
      split_ifs <;> constructor <;> simp <;> nlinarith
    | none =>
      dsimp only
      split_ifs <;> constructor <;> simp <;> norm_num

lemma sqlEqB_text (v : Value) (e : String) : sqlEqB v (.text e) = (v == .text e) := by
  cases v <;> rfl

lemma selectByEmailOrdered_perm (t : Table) (email : String) :
    (selectByEmailOrdered t email).Perm
      (t.rows.filter (fun r => rowGet r "email" == Value.text email)) := by
  unfold selectByEmailOrdered
  rw [List.filter_congr (fun r _ => sqlEqB_text (rowGet r "email") email)]
  exact List.perm_insertionSort _ _

lemma selectByEmailOrdered_sorted (t : Table) (email : String) :
    (selectByEmailOrdered t email).Pairwise dateDescRel :=
  List.sorted_insertionSort _ _

lemma pyIsalpha_eq_false {s : String} (h : ∃ c ∈ s.data, ¬ c.isAlpha) :
    pyIsalpha s = false := by
  unfold pyIsalpha
  have hall : s.data.all Char.isAlpha = false := by
    rw [List.all_eq_false]
    obtain ⟨c, hc, hca⟩ := h
    exact ⟨c, hc, by simpa using hca⟩
  rw [hall, Bool.and_false]

lemma runDiabetes_reject (db : DbState) (f : DiabetesForm) (ml : Bool) (now : Int) (ok : Bool)
    (hf : (∃ c ∈ (stripSpaces f.name).data, ¬ c.isAlpha) ∨
          endsWithAny f.email email_type = false) :
    ∃ o, isPreInferenceReject o ∧
      ∀ m : Classifier, runDiabetes db f m ml now ok = (db, o) := by
  by_cases h1 : f.name = "" ∨ f.email = ""
  · exact ⟨.warnedMissing, Or.inl rfl, fun m => by unfold runDiabetes; rw [if_pos h1]⟩
  · by_cases h2 : pyIsalpha (stripSpaces f.name) = true
    · have hemail : endsWithAny f.email email_type = false := by
        rcases hf with h | h
        · rw [pyIsalpha_eq_false h] at h2
          exact absurd h2 (by simp)
        · exact h
      refine ⟨.rejectedEmail, Or.inr (Or.inr rfl), fun m => ?_⟩
      unfold runDiabetes
      rw [if_neg h1]
      simp [h2, hemail]
    · have h2' : pyIsalpha (stripSpaces f.name) = false := by
        revert h2; cases pyIsalpha (stripSpaces f.name) <;> simp
      refine ⟨.rejectedName, Or.inr (Or.inl rfl), fun m => ?_⟩
      unfold runDiabetes
      rw [if_neg h1]
      simp [h2']

lemma runHeart_reject (db : DbState) (g : HeartForm) (ml ok : Bool)
    (hg : (∃ c ∈ (stripSpaces g.name).data, ¬ c.isAlpha) ∨
          endsWithAny g.email email_type = false) :
    ∃ o, isPreInferenceReject o ∧
      ∀ m : Classifier, runHeart db g m ml ok = (db, o) := by
  by_cases h1 : g.name = "" ∨ g.email = ""
  · exact ⟨.warnedMissing, Or.inl rfl, fun m => by unfold runHeart; rw [if_pos h1]⟩
  · by_cases h2 : pyIsalpha (stripSpaces g.name) = true
    · have hemail : endsWithAny g.email email_type = false := by
        rcases hg with h | h
        · rw [pyIsalpha_eq_false h] at h2
          exact absurd h2 (by simp)
        · exact h
      refine ⟨.rejectedEmail, Or.inr (Or.inr rfl), fun m => ?_⟩
      unfold runHeart
      rw [if_neg h1]
      simp [h2, hemail]
    · have h2' : pyIsalpha (stripSpaces g.name) = false := by
        revert h2; cases pyIsalpha (stripSpaces g.name) <;> simp
      refine ⟨.rejectedName, Or.inr (Or.inl rfl), fun m => ?_⟩
      unfold runHeart
      rw [if_neg h1]
      simp [h2']

lemma createTable_any_self (db : DbState) (n : String) (s : List Column) :
    ((createTableIfNotExists db n s).tables.any (fun p => p.1 == n)) = true := by
  unfold createTableIfNotExists
  split_ifs with h
  · exact h
  · simp [List.any_append]

lemma createTable_any_mono (db : DbState) (n n' : String) (s : List Column)
    (h : db.tables.any (fun p => p.1 == n') = true) :
    ((createTableIfNotExists db n s).tables.any (fun p => p.1 == n')) = true := by
  unfold createTableIfNotExists
  split_ifs with hc
  · exact h
  · simp [List.any_append, h]

lemma createTable_noop (db : DbState) (n : String) (s : List Column)
    (h : db.tables.any (fun p => p.1 == n) = true) :
    createTableIfNotExists db n s = db := by
  unfold createTableIfNotExists
  rw [if_pos h]

/-- Claim C1 (code-bug evidence): a fully valid diabetes pipeline run —
valid name and email, models loaded, inference returning the diagnosis
"Diabetic" — inserts no row at all: `save_diabetes_prediction`'s INSERT
names the column `sex`, which the `diabetes_predictions` schema created by
`initialize_db` does not contain, so the insert raises, the `except`
branch rolls back, and the store is unchanged.  The third conjunct
exhibits the mismatch: no schema column is named `sex`. -/
theorem diabetes_save_schema_mismatch :
    (runDiabetes (initialize_db emptyDb) diabetesForm0 clf93 true 5 true).snd
        = .saveFailed "table diabetes_predictions has no column named sex" ∧
    (runDiabetes (initialize_db emptyDb) diabetesForm0 clf93 true 5 true).fst
        = initialize_db emptyDb ∧
    ∀ c ∈ diabetesSchema, c.name ≠ "sex" := by
  refine ⟨rfl, rfl, by decide⟩

/-- Claim C2 (code-bug evidence): a fully valid heart-disease pipeline run
appends exactly one row, and that row's `prediction_date` is `NULL`: the
effective (last-defined) `save_heart_disease_prediction` omits
`prediction_date` from its INSERT column list and the schema declares no
default for it, so no server timestamp is persisted. -/
theorem heart_save_null_prediction_date :
    (runHeart (initialize_db emptyDb) heartForm0 goodHeartClf true true).snd = .saved true ∧
    (heartRowsOf (runHeart (initialize_db emptyDb) heartForm0 goodHeartClf true true).fst).length = 1 ∧
    ∀ r ∈ heartRowsOf (runHeart (initialize_db emptyDb) heartForm0 goodHeartClf true true).fst,
      rowGet r "prediction_date" = Value.null ∧
      rowGet r "prediction" = Value.text "Heart Disease Detected" := by
  refine ⟨rfl, rfl, by decide⟩

/-- Claim C3 counterexample: an input on which inference fails (the model
raises `ValueError`) does NOT abort the pipeline before persistence — the
heart flow stores a record whose prediction field is the adapter's error
label. -/
theorem inference_failure_record_stored :
    heart_disease_prediction badClf (heartFeatures heartForm0)
        = ("Error: Invalid input! bad", 0) ∧
    (heartRowsOf (runHeart (initialize_db emptyDb) heartForm0 badClf true true).fst).length = 1 ∧
    ∀ r ∈ heartRowsOf (runHeart (initialize_db emptyDb) heartForm0 badClf true true).fst,
      rowGet r "prediction" = Value.text "Error: Invalid input! bad" := by
  refine ⟨rfl, rfl, by decide⟩

/-- Claim C3 (amended): when inference fails, the adapter returns an error
label with confidence 0 and the pipeline proceeds to persistence anyway:
a heart-flow run that passes validation appends exactly one record whose
prediction field is the error label (and whose `prediction_date` is
`NULL`), and the run still reports a normal save. -/
theorem inference_failure_persists_error_label
    (db : DbState) (f : HeartForm) (m : Classifier) (t : Table) (msg : String) (smtpOk : Bool)
    (hne : ¬ (f.name = "" ∨ f.email = ""))
    (hnm : pyIsalpha (stripSpaces f.name) = true)
    (hem : endsWithAny f.email email_type = true)
    (ht : getTable db "heart_disease_predictions" = some t)
    (hschema : t.schema = heartSchema)
    (hfail : m.predict (heartFeatures f) = .error (.valueError msg)) :
    ∃ row,
      heartRowsOf (runHeart db f m true smtpOk).fst = t.rows ++ [row] ∧
      rowGet row "prediction" = Value.text ("Error: Invalid input! " ++ msg) ∧
      rowGet row "prediction_date" = Value.null ∧
      (runHeart db f m true smtpOk).snd = .saved smtpOk := by
  obtain ⟨sch, seq, rows⟩ := t
  simp only at hschema
  subst hschema
  have hdiag : heart_disease_prediction m (heartFeatures f)
      = ("Error: Invalid input! " ++ msg, 0) := by
    unfold heart_disease_prediction
    rw [hfail]
  have hsave := save_heart_ok db (heartUserData f) ("Error: Invalid input! " ++ msg) seq rows ht
  have hrun : runHeart db f m true smtpOk
      = (setTable db "heart_disease_predictions"
          ⟨heartSchema, seq + 1,
            rows ++ [heartInsertRow (heartUserData f) ("Error: Invalid input! " ++ msg) seq]⟩,
         .saved smtpOk) := by
    unfold runHeart
    rw [if_neg hne]
    simp only [hnm, Bool.not_true, Bool.false_eq_true, if_false, hem, if_true,
      hdiag, hsave]
  refine ⟨heartInsertRow (heartUserData f) ("Error: Invalid input! " ++ msg) seq, ?_, rfl, rfl, ?_⟩
  · rw [hrun]
    unfold heartRowsOf
    rw [getTable_setTable db _ ⟨heartSchema, seq, rows⟩ _ ht]
  · rw [hrun]

/-- Witness for the amended C3 at a concrete failing run. -/
theorem inference_failure_persists_error_label_witness :
    ∃ row,
      heartRowsOf (runHeart (initialize_db emptyDb) heartForm0 badClf true false).fst
        = heartTable0.rows ++ [row] ∧
      rowGet row "prediction" = Value.text ("Error: Invalid input! " ++ "bad") ∧
      rowGet row "prediction_date" = Value.null ∧
      (runHeart (initialize_db emptyDb) heartForm0 badClf true false).snd = .saved false :=
  inference_failure_persists_error_label (initialize_db emptyDb) heartForm0 badClf
    heartTable0 "bad" false (by decide) (by decide) (by decide) rfl rfl rfl

/-- Claim C4: for every feature vector the model can process, each adapter
returns a confidence in the closed interval [0,1], whichever of the three
derivation branches applies (predicted-class probability — assuming the
classifier's probability rows lie in [0,1] —, sigmoid of the decision
score, or the 0.8 default). -/
theorem adapter_confidence_in_unit_interval
    (m mh : Classifier) (x y : List ℝ) (ld lh : Int)
    (hdOk : m.predict x = .ok ld) (hhOk : mh.predict y = .ok lh)
    (hdp : ∀ p, m.predict_proba = some p →
      (0 ≤ (p x).1 ∧ (p x).1 ≤ 1) ∧ (0 ≤ (p x).2 ∧ (p x).2 ≤ 1))
    (hhp : ∀ p, mh.predict_proba = some p →
      (0 ≤ (p y).1 ∧ (p y).1 ≤ 1) ∧ (0 ≤ (p y).2 ∧ (p y).2 ≤ 1)) :
    (0 ≤ (diabetes_prediction m x).2 ∧ (diabetes_prediction m x).2 ≤ 1) ∧
    (0 ≤ (heart_disease_prediction mh y).2 ∧ (heart_disease_prediction mh y).2 ≤ 1) :=
  ⟨diabetes_confidence_bound m x ld hdOk hdp, heart_confidence_bound mh y lh hhOk hhp⟩

/-- Witness for C4 at concrete classifiers and inputs. -/
theorem adapter_confidence_in_unit_interval_witness :
    (0 ≤ (diabetes_prediction clf93 [1]).2 ∧ (diabetes_prediction clf93 [1]).2 ≤ 1) ∧
    (0 ≤ (heart_disease_prediction goodHeartClf [1]).2 ∧
      (heart_disease_prediction goodHeartClf [1]).2 ≤ 1) := by
  refine adapter_confidence_in_unit_interval clf93 goodHeartClf [1] [1] 1 1 rfl rfl ?_ ?_
  · intro p hp
    have he := Option.some.inj hp
    rw [← he]
    norm_num
  · intro p hp
    have he := Option.some.inj hp
    rw [← he]
    norm_num

/-- Claim C5: a diabetes classifier exposing class probabilities that
predicts label 1 with P(class 1) = 0.93 yields `("Diabetic", 0.93)`, and
one that predicts label 0 with P(class 0) = 0.95 yields
`("Not Diabetic", 0.95)`. -/
theorem adapter_concrete_probabilities :
    diabetes_prediction clf93 (diabetesFeatures diabetesForm0) = ("Diabetic", 0.93) ∧
    diabetes_prediction clf95 (diabetesFeatures diabetesForm0) = ("Not Diabetic", 0.95) := by
  constructor <;> simp [diabetes_prediction, clf93, clf95]

/-- Claim C6: each by-email query returns exactly the rows whose stored
email equals the query string (character-for-character `Value` equality
with `.text email`), as a permutation of that filter of the table's rows,
and the result is ordered newest-first by stored `prediction_date`
(pairwise `dateDescRel`: every row's date key is ≥ that of each later
row). -/
theorem queryByEmail_exact_match_sorted (db : DbState) (email : String) (td th : Table)
    (hd : getTable db "diabetes_predictions" = some td)
    (hh : getTable db "heart_disease_predictions" = some th) :
    (∃ q, get_diabetes_predictions_by_email db email = .ok q ∧
      q.Perm (td.rows.filter (fun r => rowGet r "email" == Value.text email)) ∧
      q.Pairwise dateDescRel) ∧
    (∃ q, get_heart_disease_predictions_by_email db email = .ok q ∧
      q.Perm (th.rows.filter (fun r => rowGet r "email" == Value.text email)) ∧
      q.Pairwise dateDescRel) := by
  constructor
  · refine ⟨selectByEmailOrdered td email, ?_,
      selectByEmailOrdered_perm td email, selectByEmailOrdered_sorted td email⟩
    unfold get_diabetes_predictions_by_email
    rw [hd]
  · refine ⟨selectByEmailOrdered th email, ?_,
      selectByEmailOrdered_perm th email, selectByEmailOrdered_sorted th email⟩
    unfold get_heart_disease_predictions_by_email
    rw [hh]

/-- Witness for C6 on the freshly initialized store. -/
theorem queryByEmail_exact_match_sorted_witness :
    (∃ q, get_diabetes_predictions_by_email (initialize_db emptyDb) "a@gmail.com" = .ok q ∧
      q.Perm (diabetesTable0.rows.filter
        (fun r => rowGet r "email" == Value.text "a@gmail.com")) ∧
      q.Pairwise dateDescRel) ∧
    (∃ q, get_heart_disease_predictions_by_email (initialize_db emptyDb) "a@gmail.com" = .ok q ∧
      q.Perm (heartTable0.rows.filter
        (fun r => rowGet r "email" == Value.text "a@gmail.com")) ∧
      q.Pairwise dateDescRel) :=
  queryByEmail_exact_match_sorted (initialize_db emptyDb) "a@gmail.com"
    diabetesTable0 heartTable0 rfl rfl

/-- Claim C7: a submission whose name (spaces removed) contains a
non-alphabetic character, or whose email does not end with one of the
allow-listed suffixes, is rejected before inference or storage in both
flows: the run's store is unchanged, its outcome is a validation
rejection, and the result does not depend on the classifier at all. -/
theorem invalid_name_or_email_rejected_before_inference
    (db db' : DbState) (f : DiabetesForm) (g : HeartForm)
    (m m' : Classifier) (ml : Bool) (now : Int) (ok : Bool)
    (hf : (∃ c ∈ (stripSpaces f.name).data, ¬ c.isAlpha) ∨
          endsWithAny f.email email_type = false)
    (hg : (∃ c ∈ (stripSpaces g.name).data, ¬ c.isAlpha) ∨
          endsWithAny g.email email_type = false) :
    (runDiabetes db f m ml now ok = runDiabetes db f m' ml now ok ∧
     (runDiabetes db f m ml now ok).fst = db ∧
     isPreInferenceReject (runDiabetes db f m ml now ok).snd) ∧
    (runHeart db' g m ml ok = runHeart db' g m' ml ok ∧
     (runHeart db' g m ml ok).fst = db' ∧
     isPreInferenceReject (runHeart db' g m ml ok).snd) := by
  obtain ⟨o, ho, hrun⟩ := runDiabetes_reject db f ml now ok hf
  obtain ⟨o', ho', hrun'⟩ := runHeart_reject db' g ml ok hg
  refine ⟨⟨?_, ?_, ?_⟩, ⟨?_, ?_, ?_⟩⟩
  · rw [hrun m, hrun m']
  · rw [hrun m]
  · rw [hrun m]; exact ho
  · rw [hrun' m, hrun' m']
  · rw [hrun' m]
  · rw [hrun' m]; exact ho'

/-- Witness for C7: the name "John3" and the email "user@random.io". -/
theorem invalid_name_or_email_rejected_before_inference_witness :
    (runDiabetes emptyDb badNameDiabetesForm clf93 true 0 true
        = runDiabetes emptyDb badNameDiabetesForm badClf true 0 true ∧
     (runDiabetes emptyDb badNameDiabetesForm clf93 true 0 true).fst = emptyDb ∧
     isPreInferenceReject (runDiabetes emptyDb badNameDiabetesForm clf93 true 0 true).snd) ∧
    (runHeart emptyDb badEmailHeartForm clf93 true true
        = runHeart emptyDb badEmailHeartForm badClf true true ∧
     (runHeart emptyDb badEmailHeartForm clf93 true true).fst = emptyDb ∧
     isPreInferenceReject (runHeart emptyDb badEmailHeartForm clf93 true true).snd) :=
  invalid_name_or_email_rejected_before_inference emptyDb emptyDb
    badNameDiabetesForm badEmailHeartForm clf93 badClf true 0 true
    (Or.inl ⟨'3', by decide, by decide⟩) (Or.inr (by decide))

/-- Claim C8 counterexample: the store records no schema version at all.
After startup initialization (and after running it again), SQLite's
schema-version cell is untouched at its fresh-database value 0, and the
only tables that exist are the two data tables — there is no migration
bookkeeping anywhere a version could be recorded. -/
theorem no_schema_version_recorded :
    (initialize_db emptyDb).user_version = emptyDb.user_version ∧
    (initialize_db (initialize_db emptyDb)).user_version = 0 ∧
    ∀ p ∈ (initialize_db emptyDb).tables,
      p.1 = "diabetes_predictions" ∨ p.1 = "heart_disease_predictions" := by
  refine ⟨rfl, rfl, by decide⟩

/-- Claim C8 (amended): startup initialization re-runs its two
`CREATE TABLE IF NOT EXISTS` statements on every call, but doing so is
idempotent — initializing an already-initialized store changes nothing
(in particular neither the schema nor the never-touched version cell). -/
theorem initialize_db_idempotent (db : DbState) :
    initialize_db (initialize_db db) = initialize_db db := by
  have h1 : ((initialize_db db).tables.any (fun p => p.1 == "diabetes_predictions")) = true :=
    createTable_any_mono _ _ _ _ (createTable_any_self db _ _)
  have h2 : ((initialize_db db).tables.any (fun p => p.1 == "heart_disease_predictions")) = true :=
    createTable_any_self _ _ _
  show createTableIfNotExists
      (createTableIfNotExists (initialize_db db) "diabetes_predictions" diabetesSchema)
      "heart_disease_predictions" heartSchema = initialize_db db
  rw [createTable_noop _ _ _ h1, createTable_noop _ _ _ h2]

/-- Claim C9: once the record has been appended (the save returned the
post-append store `db'`), the final store of the run is `db'` regardless
of whether the notification email succeeds or fails — a failed
`send_email` never un-does the stored record. -/
theorem notification_failure_preserves_store
    (db : DbState) (f : HeartForm) (m : Classifier) (db' : DbState) (smtpOk : Bool)
    (hne : ¬ (f.name = "" ∨ f.email = ""))
    (hnm : pyIsalpha (stripSpaces f.name) = true)
    (hem : endsWithAny f.email email_type = true)
    (hsave : save_heart_disease_prediction db (heartUserData f)
        ((heart_disease_prediction m (heartFeatures f)).1) = .ok db') :
    (runHeart db f m true smtpOk).fst = db' ∧
    (runHeart db f m true smtpOk).snd = .saved smtpOk ∧
    (runHeart db f m true false).fst = (runHeart db f m true true).fst := by
  have hrun : ∀ b : Bool, runHeart db f m true b = (db', .saved b) := by
    intro b
    unfold runHeart
    rw [if_neg hne]
    simp only [hnm, Bool.not_true, Bool.false_eq_true, if_false, hem, if_true, hsave]
  rw [hrun smtpOk, hrun false, hrun true]
  exact ⟨rfl, rfl, rfl⟩

/-- Witness for C9: the concrete run with a failed email. -/
theorem notification_failure_preserves_store_witness :
    (runHeart (initialize_db emptyDb) heartForm0 goodHeartClf true false).fst = heartSavedDb ∧
    (runHeart (initialize_db emptyDb) heartForm0 goodHeartClf true false).snd = .saved false ∧
    (runHeart (initialize_db emptyDb) heartForm0 goodHeartClf true false).fst
      = (runHeart (initialize_db emptyDb) heartForm0 goodHeartClf true true).fst :=
  notification_failure_preserves_store (initialize_db emptyDb) heartForm0 goodHeartClf
    heartSavedDb false (by decide) (by decide) (by decide) rfl

/-- Claim C10 counterexample: the tallied counts are NOT all 0.  pandas
1.x–2.x resolve `Series.get` with an integer key on the string-keyed
counts series positionally, so for the one-record history whose stored
prediction is "Diabetic" the metric shows 1 record (`get(0,0)` returns the
top count), and for a 2-"Diabetic"/1-"Not Diabetic" history the ranks
cross the labels: `diabetes_count` is 1 (the count of "Not Diabetic",
ranked second) while `no_diabetes_count` is 2. -/
theorem diabetes_history_counts_not_zero :
    no_diabetes_count [historyRow0] = 1 ∧
    diabetes_count [historyRow0] = 0 ∧
    total_user_records [historyRow0] = 1 ∧
    diabetes_count [historyRow0, historyRow0, historyRowN] = 1 ∧
    no_diabetes_count [historyRow0, historyRow0, historyRowN] = 2 := by
  refine ⟨rfl, rfl, rfl, rfl, rfl⟩

/-- Claim C10 (amended): for every non-empty diabetes history whose stored
predictions are the label strings "Diabetic" / "Not Diabetic", the tally's
integer keys fall back to positional indexing on the frequency-ranked
counts series, so the numbers shown are rank counts, not per-label
tallies: the "negative" slot (`get(0,0)`) holds the most frequent label's
count and is strictly positive, the "positive" slot (`get(1,0)`) holds the
remaining, no larger count (0 when only one label occurs), and their sum —
the displayed total — equals the full number of records. -/
theorem diabetes_history_counts_positional (rows : List Row)
    (hne : rows ≠ [])
    (hstr : ∀ r ∈ rows, rowGet r "prediction" = Value.text "Diabetic" ∨
                        rowGet r "prediction" = Value.text "Not Diabetic") :
    0 < no_diabetes_count rows ∧
    diabetes_count rows ≤ no_diabetes_count rows ∧
    total_user_records rows = rows.length := by
  have hkeep : predictionValues rows = rows.map (fun r => rowGet r "prediction") := by
    unfold predictionValues
    apply List.filter_eq_self.mpr
    intro v hv
    rw [List.mem_map] at hv
    obtain ⟨r, hr, hrv⟩ := hv
    rcases hstr r hr with h | h <;> rw [← hrv, h] <;> decide
  have hlen : (predictionValues rows).length = rows.length := by
    rw [hkeep, List.length_map]
  have hvne : predictionValues rows ≠ [] := by
    intro h0
    apply hne
    have h1 : rows.length = 0 := by rw [← hlen, h0]; rfl
    exact List.length_eq_zero.mp h1
  have htext : ∀ v ∈ (predictionValues rows).dedup,
      v = Value.text "Diabetic" ∨ v = Value.text "Not Diabetic" := by
    intro v hv
    have hv' := List.mem_dedup.mp hv
    rw [hkeep, List.mem_map] at hv'
    obtain ⟨r, hr, hrv⟩ := hv'
    rcases hstr r hr with h | h
    · exact Or.inl (by rw [← hrv, h])
    · exact Or.inr (by rw [← hrv, h])
  have hdsub : (predictionValues rows).dedup
      ⊆ [Value.text "Diabetic", Value.text "Not Diabetic"] := by
    intro v hv
    rcases htext v hv with h | h <;> simp [h]
  have hdlen : (predictionValues rows).dedup.length ≤ 2 := by
    have hs := (List.nodup_dedup (predictionValues rows)).subperm hdsub
    simpa using hs.length_le
  have hdne : (predictionValues rows).dedup ≠ [] := by
    cases hv : predictionValues rows with
    | nil => exact absurd hv hvne
    | cons a l =>
      intro h0
      have ha : a ∈ (a :: l).dedup := by
        rw [List.mem_dedup]
        exact List.mem_cons_self a l
      rw [h0] at ha
      exact List.not_mem_nil a ha
  have hperm : (value_counts rows).Perm
      ((predictionValues rows).dedup.map
        (fun v => (v, (predictionValues rows).count v))) := by
    unfold value_counts
    exact List.perm_insertionSort _ _
  have hsorted : (value_counts rows).Pairwise countDescRel := by
    unfold value_counts
    exact List.sorted_insertionSort _ _
  have hfind : ∀ k : Nat,
      (value_counts rows).find? (fun p => p.1 == Value.int k) = none := by
    intro k
    rw [List.find?_eq_none]
    intro p hp
    have hp' := hperm.mem_iff.mp hp
    rw [List.mem_map] at hp'
    obtain ⟨v, hv, hpv⟩ := hp'
    rcases htext v hv with h | h <;> rw [← hpv] <;> simp [h]
  have hcpos : ∀ p ∈ value_counts rows, 0 < p.2 := by
    intro p hp
    have hp' := hperm.mem_iff.mp hp
    rw [List.mem_map] at hp'
    obtain ⟨v, hv, hpv⟩ := hp'
    rw [← hpv]
    exact List.count_pos_iff.mpr (List.mem_dedup.mp hv)
  have hsum : ((value_counts rows).map (fun p => p.2)).sum = rows.length := by
    have h1 := (hperm.map (fun p : Value × Nat => p.2)).sum_eq
    rw [h1, List.map_map]
    have h2 : ((fun p : Value × Nat => p.2) ∘
        (fun v => (v, (predictionValues rows).count v)))
        = fun v => (predictionValues rows).count v := rfl
    rw [h2, List.sum_map_count_dedup_eq_length, hlen]
  have hvclen : (value_counts rows).length ≤ 2 := by
    rw [hperm.length_eq, List.length_map]
    exact hdlen
  have hvcne : value_counts rows ≠ [] := by
    intro h0
    rw [h0] at hperm
    have hb := List.Perm.eq_nil hperm.symm
    exact hdne (List.map_eq_nil_iff.mp hb)
  unfold total_user_records diabetes_count no_diabetes_count
  cases hvc : value_counts rows with
  | nil => exact absurd hvc hvcne
  | cons p0 tl =>
    rw [hvc] at hfind hcpos hsum hvclen hsorted
    cases tl with
    | nil =>
      have hs0 : seriesGet [p0] 0 0 = p0.2 := by
        unfold seriesGet
        rw [hfind 0]
        rfl
      have hs1 : seriesGet [p0] 1 0 = 0 := by
        unfold seriesGet
        rw [hfind 1]
        rfl
      rw [hs0, hs1]
      have hp0 := hcpos p0 (List.mem_cons_self p0 [])
      simp only [List.map_cons, List.map_nil, List.sum_cons, List.sum_nil] at hsum
      exact ⟨hp0, by omega, by omega⟩
    | cons p1 tl2 =>
      have htl2 : tl2 = [] := by
        simp only [List.length_cons] at hvclen
        exact List.length_eq_zero.mp (by omega)
      subst htl2
      have hs0 : seriesGet [p0, p1] 0 0 = p0.2 := by
        unfold seriesGet
        rw [hfind 0]
        rfl
      have hs1 : seriesGet [p0, p1] 1 0 = p1.2 := by
        unfold seriesGet
        rw [hfind 1]
        rfl
      rw [hs0, hs1]
      have hp0 := hcpos p0 (List.mem_cons_self p0 [p1])
      have hrel : countDescRel p0 p1 :=
        (List.pairwise_cons.mp hsorted).1 p1 (List.mem_cons_self p1 [])
      have hle : p1.2 ≤ p0.2 := hrel
      simp only [List.map_cons, List.map_nil, List.sum_cons, List.sum_nil] at hsum
      exact ⟨hp0, hle, by omega⟩

/-- Witness for the amended C10 on a three-record history holding both
labels. -/
theorem diabetes_history_counts_positional_witness :
    0 < no_diabetes_count [historyRow0, historyRow0, historyRowN] ∧
    diabetes_count [historyRow0, historyRow0, historyRowN]
      ≤ no_diabetes_count [historyRow0, historyRow0, historyRowN] ∧
    total_user_records [historyRow0, historyRow0, historyRowN]
      = [historyRow0, historyRow0, historyRowN].length :=
  diabetes_history_counts_positional [historyRow0, historyRow0, historyRowN]
    (by decide) (by decide)
